import Mathlib

/-!
Shallow embedding of the Feature-Toggle-Service core
(src/api/features.routes.ts, src/api/promotion.routes.ts,
src/services/cache.service.ts, src/services/audit.service.ts)
over explicit database/cache state, together with theorems settling the
specification claims about evaluation, caching, promotion and auditing.
-/

namespace FTS

/-- Environment enum from the Prisma schema: `dev | staging | prod`. -/
inductive Env where
  | dev
  | staging
  | prod
deriving DecidableEq

/-- EvaluationStrategy enum from the Prisma schema. -/
inductive Strategy where
  | BOOLEAN
  | PERCENTAGE
  | USER
deriving DecidableEq

/-- JSON values as stored in the JSONB `strategyValue` column.  Numbers are
modelled as rationals (JSON numeric literals are finite decimals); arrays are
not modelled (no code path of this service stores or reads JSON arrays in
`strategyValue`). -/
inductive Json where
  | null
  | bool (b : Bool)
  | num (q : ℚ)
  | str (s : String)
  | obj (fields : List (String × Json))

/-- The string name of an environment, as it appears in requests, cache keys
and the `Environment` enum values. -/
def envName : Env → String
  | .dev => "dev"
  | .staging => "staging"
  | .prod => "prod"

/-- Parsing a request string into an environment; models the
`Object.values(Environment).includes(...)` membership checks. -/
def parseEnv (s : String) : Option Env :=
  if s = "dev" then some Env.dev
  else if s = "staging" then some Env.staging
  else if s = "prod" then some Env.prod
  else none

/-- A row of the `FeatureFlag` table. -/
structure FlagRecord where
  id : String
  tenantId : String
  featureId : String
  env : Env
  enabled : Bool
  strategy : Strategy
  strategyValue : Option Json
  createdAt : Nat
  updatedAt : Nat

/-- A row of the `Feature` table (only the fields the core reads). -/
structure Feature where
  id : String
  name : String
  description : Option String

/-- Audit actions (`audit.service.ts`). -/
inductive AuditAction where
  | CREATE
  | UPDATE
  | DELETE
  | PROMOTE
deriving DecidableEq

/-- The `diff` JSON payload of an audit entry: `{before, after}` for flag
changes, `{source, target, promotedCount}` for promotions (the code's key
names are `source` and `target`). -/
inductive Diff where
  | change (before : Option FlagRecord) (after : Option FlagRecord)
  | promo (source : String) (target : String) (promotedCount : Nat)

/-- A row of the `AuditLog` table (fields written by `createAuditLog`). -/
structure AuditEntry where
  tenantId : String
  actor : String
  action : AuditAction
  entity : String
  entityId : String
  diff : Option Diff

/-- The relational store: `Feature` rows, `FeatureFlag` rows and `AuditLog`
rows, plus a fresh-id counter and a clock used for generated ids and
timestamps. -/
structure Db where
  features : List Feature
  flags : List FlagRecord
  audits : List AuditEntry
  nextId : Nat
  now : Nat

/- ---------------------------------------------------------------------
Evaluation engine (GET /features handler, the `evaluatedFlags` map,
src/api/features.routes.ts lines 315-351).
--------------------------------------------------------------------- -/

/-- JavaScript truthiness on JSON values, used by the `||` defaulting in
`(flag.strategyValue as Prisma.JsonObject)?.percentage || 0`. -/
def jsFalsy : Json → Bool
  | .null => true
  | .bool b => !b
  | .num q => q == 0
  | .str s => s == ""
  | .obj _ => false

/-- Property access `j?.percentage` on a JSON value: an object yields its
field (first binding), anything else yields `undefined` (here `none`). -/
def getField (j : Json) (k : String) : Option Json :=
  match j with
  | .obj fs => (fs.find? (fun p => p.1 == k)).map (fun p => p.2)
  | _ => none

/-- The expression `((flag.strategyValue as Prisma.JsonObject)?.percentage) || 0`:
a missing record value, a missing field, or a falsy field all default to the
number `0`; otherwise the raw JSON field value is kept. -/
def readPercentage (sv : Option Json) : Json :=
  match sv with
  | none => Json.num 0
  | some j =>
    match getField j "percentage" with
    | none => Json.num 0
    | some v => if jsFalsy v then Json.num 0 else v

/-- The value space of JavaScript's `ToNumber` coercion: `NaN`, the two
infinities, or a finite value.  Finite values are idealized as exact
rationals (no binary64 rounding), matching the treatment of JSON numbers
throughout this model. -/
inductive JsNumber where
  | nan
  | posInf
  | negInf
  | num (q : ℚ)
deriving DecidableEq

/-- Whitespace accepted (and trimmed) by JavaScript's string-to-number
coercion: the WhiteSpace and LineTerminator code points. -/
def isJsSpace (c : Char) : Bool :=
  let n := c.toNat
  n == 0x09 || n == 0x0A || n == 0x0B || n == 0x0C || n == 0x0D ||
  n == 0x20 || n == 0xA0 || n == 0x1680 ||
  (decide (0x2000 ≤ n) && decide (n ≤ 0x200A)) ||
  n == 0x2028 || n == 0x2029 || n == 0x202F || n == 0x205F || n == 0xFEFF

/-- Trim JS whitespace from both ends of a character list. -/
def jsTrim (l : List Char) : List Char :=
  ((l.dropWhile isJsSpace).reverse.dropWhile isJsSpace).reverse

/-- Consume a maximal run of decimal digits: accumulated value, number of
digits consumed, and the remaining characters. -/
def takeDigitsAux (acc cnt : Nat) : List Char → Nat × Nat × List Char
  | [] => (acc, cnt, [])
  | c :: cs =>
    if decide (48 ≤ c.toNat) && decide (c.toNat ≤ 57) then
      takeDigitsAux (acc * 10 + (c.toNat - 48)) (cnt + 1) cs
    else (acc, cnt, c :: cs)

/-- Hexadecimal digit value of a character, when it is one. -/
def hexVal (c : Char) : Option Nat :=
  let n := c.toNat
  if 48 ≤ n ∧ n ≤ 57 then some (n - 48)
  else if 97 ≤ n ∧ n ≤ 102 then some (n - 87)
  else if 65 ≤ n ∧ n ≤ 70 then some (n - 55)
  else none

/-- Read a whole character list as digits of the given radix. -/
def parseRadixAux (radix acc : Nat) : List Char → Option Nat
  | [] => some acc
  | c :: cs =>
    match hexVal c with
    | some d =>
      if d < radix then parseRadixAux radix (acc * radix + d) cs else none
    | none => none

/-- A non-empty all-digits numeral of the given radix, or nothing. -/
def parseRadix (radix : Nat) (l : List Char) : Option Nat :=
  match l with
  | [] => none
  | _ => parseRadixAux radix 0 l

/-- The exponent suffix of a decimal literal: empty means exponent `0`;
otherwise `e`/`E`, an optional sign and at least one digit consuming the
rest of the input. -/
def parseExpDigits (l : List Char) : Option Nat :=
  match takeDigitsAux 0 0 l with
  | (v, cnt, rest) => if cnt = 0 ∨ rest ≠ [] then none else some v

def parseExpPart : List Char → Option Int
  | [] => some 0
  | c :: cs =>
    if c == 'e' || c == 'E' then
      match cs with
      | '+' :: cs2 => (parseExpDigits cs2).map (fun n => (n : Int))
      | '-' :: cs2 => (parseExpDigits cs2).map (fun n => -(n : Int))
      | _ => (parseExpDigits cs).map (fun n => (n : Int))
    else none

/-- Scale a rational by a power of ten with an integer exponent. -/
def mulPow10 (q : ℚ) : Int → ℚ
  | Int.ofNat n => q * (10 : ℚ) ^ n
  | Int.negSucc n => q / (10 : ℚ) ^ (n + 1)

/-- An unsigned decimal literal (`digits`, `digits.digits`, `.digits`, each
with an optional exponent part), consuming the whole input. -/
def parseUnsignedDec (l : List Char) : Option ℚ :=
  match takeDigitsAux 0 0 l with
  | (ip, ic, r1) =>
    match r1 with
    | '.' :: r2 =>
      match takeDigitsAux 0 0 r2 with
      | (fp, fc, r3) =>
        if ic = 0 ∧ fc = 0 then none
        else
          (parseExpPart r3).map
            (fun e => mulPow10 ((ip : ℚ) + (fp : ℚ) / (10 : ℚ) ^ fc) e)
    | _ =>
      if ic = 0 then none
      else (parseExpPart r1).map (fun e => mulPow10 (ip : ℚ) e)

/-- A signed decimal literal body: `Infinity` or an unsigned decimal
literal, with the sign already stripped. -/
def decOrInf (l : List Char) (neg : Bool) : JsNumber :=
  if l = "Infinity".toList then
    (if neg then JsNumber.negInf else JsNumber.posInf)
  else
    match parseUnsignedDec l with
    | some q => JsNumber.num (if neg then -q else q)
    | none => JsNumber.nan

/-- Radix-prefixed numerals `0x…`/`0o…`/`0b…` (unsigned only): a malformed
body after the radix marker is `NaN`. -/
def radixResult (radix : Nat) (l : List Char) : JsNumber :=
  match parseRadix radix l with
  | some n => JsNumber.num n
  | none => JsNumber.nan

def parseRadixPrefixed : List Char → Option JsNumber
  | '0' :: c :: rest =>
    if c == 'x' || c == 'X' then some (radixResult 16 rest)
    else if c == 'o' || c == 'O' then some (radixResult 8 rest)
    else if c == 'b' || c == 'B' then some (radixResult 2 rest)
    else none
  | _ => none

/-- JavaScript's string-to-number coercion (the `StringToNumber` algorithm):
trim whitespace; empty is `0`; a radix-prefixed numeral; otherwise an
optionally signed decimal literal or `Infinity`; anything else is `NaN`. -/
def jsStringToNumber (s : String) : JsNumber :=
  match jsTrim s.toList with
  | [] => JsNumber.num 0
  | l =>
    match parseRadixPrefixed l with
    | some r => r
    | none =>
      match l with
      | '+' :: rest => decOrInf rest false
      | '-' :: rest => decOrInf rest true
      | _ => decOrInf l false

/-- JavaScript numeric coercion of a JSON value, as performed by the
division `percentage / 100`: `null` is `0`, booleans are `0`/`1`, numbers
are themselves, strings go through `StringToNumber` (so numeric strings
parse to their value), and a plain object is `NaN` (its primitive form
`[object Object]` does not parse). -/
def toNumber : Json → JsNumber
  | .null => JsNumber.num 0
  | .bool b => JsNumber.num (if b then 1 else 0)
  | .num q => JsNumber.num q
  | .str s => jsStringToNumber s
  | .obj _ => JsNumber.nan

/-- The percentage read from `strategyValue`, as a JavaScript number. -/
def percentageOf (sv : Option Json) : JsNumber :=
  toNumber (readPercentage sv)

/-- Division `percentage / 100` on JavaScript numbers. -/
def jsDiv100 : JsNumber → JsNumber
  | JsNumber.nan => JsNumber.nan
  | JsNumber.posInf => JsNumber.posInf
  | JsNumber.negInf => JsNumber.negInf
  | JsNumber.num q => JsNumber.num (q / 100)

/-- Comparison `r < x` on JavaScript numbers: any comparison against `NaN`
is `false`. -/
def jsLt (r : ℚ) : JsNumber → Bool
  | JsNumber.nan => false
  | JsNumber.posInf => true
  | JsNumber.negInf => false
  | JsNumber.num p => decide (r < p)

/-- The `PERCENTAGE` branch decision `Math.random() < percentage / 100`,
with the random sample `r` passed explicitly. -/
def percDecision (sv : Option Json) (r : ℚ) : Bool :=
  jsLt r (jsDiv100 (percentageOf sv))

/-- The per-record evaluation of the GET /features handler:
`isEnabled` starts as `flag.enabled`; when it is `true` the strategy switch
re-samples for `PERCENTAGE` and leaves it unchanged for `USER`, `BOOLEAN`
and the default case.  `r` is the `Math.random()` sample consumed by the
`PERCENTAGE` branch. -/
def evaluateRecord (flag : FlagRecord) (r : ℚ) : Bool :=
  if flag.enabled then
    match flag.strategy with
    | .PERCENTAGE => percDecision flag.strategyValue r
    | .USER => true
    | .BOOLEAN => true
  else
    false

/- ---------------------------------------------------------------------
Claim theorems about the evaluation engine (C3, C8, C9).
--------------------------------------------------------------------- -/

/-- C3.  Kill-switch dominance: every record with `enabled = false`
evaluates to `false`, regardless of its strategy and of its
`strategyValue`, for every random sample. -/
theorem claim_C3_kill_switch (flag : FlagRecord) (r : ℚ)
    (h : flag.enabled = false) : evaluateRecord flag r = false := by
  simp [evaluateRecord, h]

/-- Witness for C3 at a concrete record (PERCENTAGE at 100, disabled). -/
theorem claim_C3_witness :
    evaluateRecord
      { id := "f1", tenantId := "t1", featureId := "ft1", env := Env.dev,
        enabled := false, strategy := Strategy.PERCENTAGE,
        strategyValue := some (Json.obj [("percentage", Json.num 100)]),
        createdAt := 0, updatedAt := 0 } (1 / 2) = false :=
  claim_C3_kill_switch _ _ rfl

/-- C9.  BOOLEAN truth and USER equivalence: an enabled `BOOLEAN` record
evaluates to `true` on every call, and a record with strategy `USER`
evaluates exactly like the identical record with strategy `BOOLEAN` (no
per-user data is consulted). -/
theorem claim_C9_boolean_user (flag : FlagRecord) (r : ℚ) :
    (flag.enabled = true → flag.strategy = Strategy.BOOLEAN →
        evaluateRecord flag r = true) ∧
    evaluateRecord { flag with strategy := Strategy.USER } r =
      evaluateRecord { flag with strategy := Strategy.BOOLEAN } r := by
  constructor
  · intro hen hst
    simp [evaluateRecord, hen, hst]
  · cases h : flag.enabled <;> simp [evaluateRecord, h]

/-- Witness for C9: a concrete enabled BOOLEAN record evaluates true, and a
concrete USER record evaluates as its BOOLEAN twin. -/
theorem claim_C9_witness :
    evaluateRecord
      { id := "f1", tenantId := "t1", featureId := "ft1", env := Env.dev,
        enabled := true, strategy := Strategy.BOOLEAN,
        strategyValue := none, createdAt := 0, updatedAt := 0 } 0 = true ∧
    evaluateRecord
      { id := "f2", tenantId := "t1", featureId := "ft2", env := Env.prod,
        enabled := true, strategy := Strategy.USER,
        strategyValue := none, createdAt := 0, updatedAt := 0 } 0 =
      evaluateRecord
        { id := "f2", tenantId := "t1", featureId := "ft2", env := Env.prod,
          enabled := true, strategy := Strategy.BOOLEAN,
          strategyValue := none, createdAt := 0, updatedAt := 0 } 0 := by
  constructor
  · exact (claim_C9_boolean_user _ 0).1 rfl rfl
  · exact (claim_C9_boolean_user
      { id := "f2", tenantId := "t1", featureId := "ft2", env := Env.prod,
        enabled := true, strategy := Strategy.BOOLEAN,
        strategyValue := none, createdAt := 0, updatedAt := 0 } 0).2

/- ---------------------------------------------------------------------
Cache coordinator (src/services/cache.service.ts) and the read path
(GET /features handler, src/api/features.routes.ts lines 255-386).
--------------------------------------------------------------------- -/

/-- An evaluated flag as returned by the GET /features handler. -/
structure EvaluatedFlag where
  id : String
  featureId : String
  name : String
  description : Option String
  enabled : Bool
  env : Env
  strategy : Strategy

/-- Pagination metadata of the response payload. -/
structure Pagination where
  total : Nat
  page : Nat
  limit : Nat
  totalPages : Nat

/-- The cached/returned payload: evaluated flags plus pagination. -/
structure Payload where
  data : List EvaluatedFlag
  pagination : Pagination

/-- The Redis cache, modelled as an association list from cache keys to the
payloads stored at them (the TTL is not modelled; no time passes inside a
single request). -/
abbrev Cache := List (String × Payload)

/-- Cache key format from `createCacheKey`: `features:{tenantId}:{env}`. -/
def createCacheKey (tenantId : String) (env : String) : String :=
  "features:" ++ tenantId ++ ":" ++ env

/-- Redis GET. -/
def cacheGet (c : Cache) (k : String) : Option Payload :=
  (c.find? (fun p => p.1 == k)).map (fun p => p.2)

/-- Redis SET: overwrites any existing entry for the key. -/
def cacheSet (c : Cache) (k : String) (v : Payload) : Cache :=
  (k, v) :: c.filter (fun p => !(p.1 == k))

/-- Redis DEL: idempotent removal. -/
def cacheDel (c : Cache) (k : String) : Cache :=
  c.filter (fun p => !(p.1 == k))

/-- The full service state: relational store plus cache. -/
structure St where
  db : Db
  cache : Cache

/-- Response source marker of GET /features (`'cache'` or `'database'`). -/
inductive Source where
  | cache
  | database
deriving DecidableEq

/-- The response of GET /features. -/
structure ReadResponse where
  source : Source
  payload : Payload

/-- JavaScript falsiness of the `filter` query parameter: absent or the
empty string.  The handler both skips the relation filter and enters the
cache for a falsy `filter`. -/
def noFilter : Option String → Bool
  | none => true
  | some s => s == ""

/-- Whether `small` occurs as a prefix of `big` (character lists). -/
def charsPrefix : List Char → List Char → Bool
  | [], _ => true
  | _ :: _, [] => false
  | a :: as, b :: bs => a == b && charsPrefix as bs

/-- Whether `small` occurs as a contiguous run inside `big`. -/
def charsContain (small : List Char) : List Char → Bool
  | [] => charsPrefix small []
  | b :: bs => charsPrefix small (b :: bs) || charsContain small bs

/-- Case-insensitive substring test, modelling the Prisma filter
`{ contains: filter, mode: 'insensitive' }`. -/
def containsCI (hay needle : String) : Bool :=
  charsContain needle.toLower.toList hay.toLower.toList

/-- The name filter of the Prisma `where` clause: applied only when `filter`
is truthy, and matched against the related `Feature`'s name. -/
def matchesName (db : Db) (filter : Option String) (r : FlagRecord) : Bool :=
  if noFilter filter then true
  else
    match db.features.find? (fun ft => decide (ft.id = r.featureId)) with
    | some ft => containsCI ft.name (filter.getD "")
    | none => false

/-- The full `where` clause of the GET /features query. -/
def matchesQuery (db : Db) (tenantId : String) (env : Env)
    (filter : Option String) (r : FlagRecord) : Bool :=
  decide (r.tenantId = tenantId) && decide (r.env = env) &&
    matchesName db filter r

/-- Ceiling division `Math.ceil(total / limit)` on naturals (the handler's
`totalPages`). -/
def ceilDiv (a b : Nat) : Nat :=
  if b = 0 then 0 else (a + b - 1) / b

/-- The evaluated-flag view of one record (`evaluatedFlags` map body):
name and description come from the included `Feature` row; `enabled` is the
evaluation decision. -/
def evalView (db : Db) (r : ℚ) (flag : FlagRecord) : EvaluatedFlag :=
  let feat := db.features.find? (fun ft => decide (ft.id = flag.featureId))
  { id := flag.id, featureId := flag.featureId,
    name := (feat.map (fun ft => ft.name)).getD "",
    description := feat.bind (fun ft => ft.description),
    enabled := evaluateRecord flag r,
    env := flag.env, strategy := flag.strategy }

/-- The database path of GET /features: filtered list, skip/take
pagination, per-record evaluation (one random sample per list position) and
pagination metadata. -/
def buildPayload (db : Db) (tenantId : String) (env : Env)
    (page limit : Nat) (filter : Option String) (rand : Nat → ℚ) : Payload :=
  let rows := db.flags.filter (matchesQuery db tenantId env filter)
  let items := (rows.drop ((page - 1) * limit)).take limit
  { data := items.enum.map (fun p => evalView db (rand p.1) p.2),
    pagination := { total := rows.length, page := page, limit := limit,
                    totalPages := ceilDiv rows.length limit } }

/-- The canonical cached shape gate of the handler:
`pageNum === 1 && !filter`.  Note that the requested `limit` is not part of
the condition. -/
def canonicalShape (page : Nat) (filter : Option String) : Prop :=
  page = 1 ∧ noFilter filter = true

instance (page : Nat) (filter : Option String) :
    Decidable (canonicalShape page filter) :=
  inferInstanceAs (Decidable (_ ∧ _))

/-- The GET /features handler: for the canonical shape it first consults the
cache and, on a miss, stores the freshly built payload; every other shape
goes straight to the database and leaves the cache untouched. -/
def evaluateFlags (st : St) (tenantId : String) (env : Env)
    (page limit : Nat) (filter : Option String) (rand : Nat → ℚ) :
    ReadResponse × St :=
  let key := createCacheKey tenantId (envName env)
  if canonicalShape page filter then
    match cacheGet st.cache key with
    | some payload => ({ source := Source.cache, payload := payload }, st)
    | none =>
      let payload := buildPayload st.db tenantId env page limit filter rand
      ({ source := Source.database, payload := payload },
        { st with cache := cacheSet st.cache key payload })
  else
    let payload := buildPayload st.db tenantId env page limit filter rand
    ({ source := Source.database, payload := payload }, st)

/- ---------------------------------------------------------------------
Claim C4: cache canonical-shape gating.
--------------------------------------------------------------------- -/

/-- C4 counterexample.  The claim states that a request whose page size is
not the default (20) is always a cache miss and bypasses the cache; but the
code's gate is only `pageNum === 1 && !filter`, so a first-page request with
`limit = 5` is served from the cache. -/
theorem claim_C4_counterexample :
    (evaluateFlags
      { db := { features := [], flags := [], audits := [], nextId := 0,
                now := 0 },
        cache := [("features:t1:dev",
          { data := [],
            pagination := { total := 0, page := 1, limit := 20,
                            totalPages := 0 } })] }
      "t1" Env.dev 1 5 none (fun _ => 0)).1.source = Source.cache ∧
    (5 : Nat) ≠ 20 := by
  constructor
  · rfl
  · decide

/-- C4 as amended: a read is served from the cache exactly when the request
is for the first page with no (truthy) name filter and the key is present —
the page size is not part of the gate; every request outside that shape goes
to the database and leaves the whole state (in particular the cache)
untouched. -/
theorem claim_C4_cache_gating (st : St) (tenantId : String) (env : Env)
    (page limit : Nat) (filter : Option String) (rand : Nat → ℚ) :
    ((evaluateFlags st tenantId env page limit filter rand).1.source =
        Source.cache ↔
      canonicalShape page filter ∧
        (cacheGet st.cache (createCacheKey tenantId (envName env))).isSome =
          true) ∧
    (¬ canonicalShape page filter →
      (evaluateFlags st tenantId env page limit filter rand).1.source =
          Source.database ∧
        (evaluateFlags st tenantId env page limit filter rand).2 = st) := by
  by_cases hc : canonicalShape page filter
  · cases hcache :
      cacheGet st.cache (createCacheKey tenantId (envName env)) with
    | none =>
      constructor
      · simp [evaluateFlags, hc, hcache]
      · intro h; exact absurd hc h
    | some payload =>
      constructor
      · simp [evaluateFlags, hc, hcache]
      · intro h; exact absurd hc h
  · constructor
    · simp [evaluateFlags, hc]
    · intro _; simp [evaluateFlags, hc]

/-- Witness for C4: a second-page request on a concrete state is served from
the database and leaves the state unchanged. -/
theorem claim_C4_witness :
    (evaluateFlags
      { db := { features := [], flags := [], audits := [], nextId := 0,
                now := 0 }, cache := [] }
      "t1" Env.dev 2 20 none (fun _ => 0)).1.source = Source.database ∧
    (evaluateFlags
      { db := { features := [], flags := [], audits := [], nextId := 0,
                now := 0 }, cache := [] }
      "t1" Env.dev 2 20 none (fun _ => 0)).2 =
      { db := { features := [], flags := [], audits := [], nextId := 0,
                now := 0 }, cache := [] } :=
  (claim_C4_cache_gating _ "t1" Env.dev 2 20 none (fun _ => 0)).2
    (by intro h; exact absurd h.1 (by decide))

/- ---------------------------------------------------------------------
Flag store writes: the Prisma `featureFlag.upsert` keyed by the natural key
`(tenantId, featureId, env)`, and the `$transaction` wrapper.
--------------------------------------------------------------------- -/

/-- The natural key of a flag row (`@@unique([tenantId, featureId, env])`). -/
abbrev TripleKey := String × String × Env

/-- Natural key of a record. -/
def natKey (r : FlagRecord) : TripleKey :=
  (r.tenantId, r.featureId, r.env)

/-- Point lookup by natural key (`findUnique` on `tenantId_featureId_env`). -/
def lookupTriple (db : Db) (k : TripleKey) : Option FlagRecord :=
  db.flags.find? (fun r => decide (natKey r = k))

/-- One upsert operation: the `where` key together with the non-key data
written by both the `create` and the `update` branch. -/
structure UpsertOp where
  tenantId : String
  featureId : String
  env : Env
  enabled : Bool
  strategy : Strategy
  strategyValue : Option Json

/-- The `where` key of an upsert operation. -/
def opKey (op : UpsertOp) : TripleKey :=
  (op.tenantId, op.featureId, op.env)

/-- The `update` branch of the upsert: non-key data replaced, `updatedAt`
refreshed, `id` and `createdAt` untouched.  (The POST /features update data
also re-writes the key fields with their existing values.) -/
def updateData (r : FlagRecord) (op : UpsertOp) (now : Nat) : FlagRecord :=
  { r with tenantId := op.tenantId, featureId := op.featureId, env := op.env,
           enabled := op.enabled, strategy := op.strategy,
           strategyValue := op.strategyValue, updatedAt := now }

/-- The `create` branch of the upsert: a fresh generated id and fresh
timestamps. -/
def newRec (op : UpsertOp) (db : Db) : FlagRecord :=
  { id := "id-" ++ toString db.nextId,
    tenantId := op.tenantId, featureId := op.featureId, env := op.env,
    enabled := op.enabled, strategy := op.strategy,
    strategyValue := op.strategyValue,
    createdAt := db.now, updatedAt := db.now }

/-- Conditional update of one row, applied to every row matching the key
(at most one under the natural-key uniqueness invariant). -/
def updIf (op : UpsertOp) (now : Nat) (r : FlagRecord) : FlagRecord :=
  if natKey r = opKey op then updateData r op now else r

/-- Upsert `prisma.featureFlag.upsert`: returns the written row and the updated
store. -/
def applyUpsertReturning (db : Db) (op : UpsertOp) : FlagRecord × Db :=
  match lookupTriple db (opKey op) with
  | some r0 =>
    (updateData r0 op db.now,
      { db with flags := db.flags.map (updIf op db.now) })
  | none =>
    (newRec op db,
      { db with flags := db.flags ++ [newRec op db],
                nextId := db.nextId + 1 })

/-- The store effect of one upsert. -/
def applyUpsertOp (db : Db) (op : UpsertOp) : Db :=
  (applyUpsertReturning db op).2

/-- Transaction `prisma.$transaction(upsertOperations)` with fault injection: the store
contract is all-or-nothing, so a failure injected at any operation index
within the batch leaves the store untouched (`none`); otherwise all
operations are applied in order. -/
def runTransaction (db : Db) (ops : List UpsertOp) (failAt : Option Nat) :
    Option Db :=
  match failAt with
  | some k =>
    if k < ops.length then none else some (ops.foldl applyUpsertOp db)
  | none => some (ops.foldl applyUpsertOp db)

/- ---------------------------------------------------------------------
POST /features (upsert handler), DELETE /features/:id, POST /promote.
--------------------------------------------------------------------- -/

/-- Responses of the POST /features handler. -/
inductive UpsertResponse where
  | created (flag : FlagRecord)
  | badRequest
  | conflict
  | serverError

/-- HTTP status of an upsert response (201 created, 400 missing fields,
409 unique-constraint conflict, 500 generic failure). -/
def UpsertResponse.status : UpsertResponse → Nat
  | .created _ => 201
  | .badRequest => 400
  | .conflict => 409
  | .serverError => 500

/-- Defaulting `strategyValue || Prisma.JsonNull`: an absent or falsy request value is
stored as JSON null (modelled as `none`). -/
def normalizeSV : Option Json → Option Json
  | none => none
  | some v => if jsFalsy v then none else some v

/-- The POST /features handler.  It looks up the existing row for the
`before` state, upserts, writes one audit entry (CREATE when no row
existed, UPDATE otherwise) and invalidates the environment's cache entry.
A `featureId` that references no `Feature` row makes the upsert fail with a
foreign-key violation (Prisma error P2003); the handler's catch block only
maps P2002 to 409 and every other error — including P2003 — to a generic
500, leaving the state untouched. -/
def upsertFlag (st : St) (tenantId featureId : String) (env : Env)
    (enabled : Bool) (strategy : Strategy) (strategyValue : Option Json) :
    UpsertResponse × St :=
  if featureId = "" then (UpsertResponse.badRequest, st)
  else
    let op : UpsertOp :=
      { tenantId := tenantId, featureId := featureId, env := env,
        enabled := enabled, strategy := strategy,
        strategyValue := normalizeSV strategyValue }
    let existing := lookupTriple st.db (tenantId, featureId, env)
    if (st.db.features.find? (fun ft => decide (ft.id = featureId))).isNone
    then
      (UpsertResponse.serverError, st)
    else
      let upserted := applyUpsertReturning st.db op
      let entry : AuditEntry :=
        { tenantId := tenantId, actor := tenantId,
          action := if existing.isSome then AuditAction.UPDATE
                    else AuditAction.CREATE,
          entity := "FeatureFlag", entityId := upserted.1.id,
          diff := some (Diff.change existing (some upserted.1)) }
      let db2 := { upserted.2 with audits := upserted.2.audits ++ [entry] }
      let cache2 := cacheDel st.cache (createCacheKey tenantId (envName env))
      (UpsertResponse.created upserted.1, { db := db2, cache := cache2 })

/-- Responses of the DELETE /features/:id handler. -/
inductive DeleteResponse where
  | noContent
  | notFound
  | serverError

/-- The DELETE /features/:id handler.  It looks the flag up scoped to the
tenant, writes the DELETE audit entry *before* executing the deletion, then
deletes by id and invalidates the cache.  `deleteFails` injects a failure
into the `prisma.featureFlag.delete` call: the catch block returns a
generic 500, but the audit entry has already been appended. -/
def deleteFlag (st : St) (tenantId flagId : String) (deleteFails : Bool) :
    DeleteResponse × St :=
  match st.db.flags.find?
      (fun r => decide (r.id = flagId) && decide (r.tenantId = tenantId)) with
  | none => (DeleteResponse.notFound, st)
  | some g =>
    let entry : AuditEntry :=
      { tenantId := tenantId, actor := tenantId, action := AuditAction.DELETE,
        entity := "FeatureFlag", entityId := g.id,
        diff := some (Diff.change (some g) none) }
    let db1 := { st.db with audits := st.db.audits ++ [entry] }
    if deleteFails then
      (DeleteResponse.serverError, { st with db := db1 })
    else
      let keep := fun (r : FlagRecord) => !(decide (r.id = flagId))
      let db2 := { db1 with flags := db1.flags.filter keep }
      let cache2 := cacheDel st.cache (createCacheKey tenantId (envName g.env))
      (DeleteResponse.noContent, { db := db2, cache := cache2 })

/-- Responses of the POST /promote handler. -/
inductive PromoteResponse where
  | badRequest
  | notFound
  | serverError
  | ok (promotedCount : Nat)

/-- The flags of one tenant in one environment (`findMany` of the promotion
handler). -/
def sourceFlagsOf (db : Db) (tenantId : String) (e : Env) : List FlagRecord :=
  db.flags.filter
    (fun r => decide (r.tenantId = tenantId) && decide (r.env = e))

/-- The derived upsert operation for one source flag: same tenant and
feature reference, `env = targetEnv`, `enabled`/`strategy`/`strategyValue`
copied verbatim; the source `id`, `createdAt`, `updatedAt` and `env` are
destructured away. -/
def promoteOp (f : FlagRecord) (targetEnv : Env) : UpsertOp :=
  { tenantId := f.tenantId, featureId := f.featureId, env := targetEnv,
    enabled := f.enabled, strategy := f.strategy,
    strategyValue := f.strategyValue }

/-- The POST /promote handler.  Validation (falsy, equal or unknown
environments) happens before any store access; an empty source set is a
404; the derived upserts run inside one `$transaction` (all-or-nothing,
with `failAt` as injected fault); on success the target environment's
cache entry is invalidated and a single PROMOTE audit entry is written
against the target environment name. -/
def promote (st : St) (tenantId sourceEnv targetEnv : String)
    (failAt : Option Nat) : PromoteResponse × St :=
  if sourceEnv = "" ∨ targetEnv = "" ∨ sourceEnv = targetEnv ∨
      (parseEnv sourceEnv).isNone ∨ (parseEnv targetEnv).isNone then
    (PromoteResponse.badRequest, st)
  else
    match parseEnv sourceEnv, parseEnv targetEnv with
    | some se, some te =>
      let sourceFlags := sourceFlagsOf st.db tenantId se
      if sourceFlags.length = 0 then (PromoteResponse.notFound, st)
      else
        let ops := sourceFlags.map (fun f => promoteOp f te)
        match runTransaction st.db ops failAt with
        | none => (PromoteResponse.serverError, st)
        | some db1 =>
          let cache1 := cacheDel st.cache (createCacheKey tenantId targetEnv)
          let entry : AuditEntry :=
            { tenantId := tenantId, actor := tenantId,
              action := AuditAction.PROMOTE, entity := "Environment",
              entityId := targetEnv,
              diff := some (Diff.promo sourceEnv targetEnv ops.length) }
          let db2 := { db1 with audits := db1.audits ++ [entry] }
          (PromoteResponse.ok ops.length, { db := db2, cache := cache1 })
    | _, _ => (PromoteResponse.badRequest, st)

/- ---------------------------------------------------------------------
Lemmas about single upserts and natural-key lookups.
--------------------------------------------------------------------- -/

theorem natKey_updateData (r : FlagRecord) (op : UpsertOp) (now : Nat) :
    natKey (updateData r op now) = opKey op := rfl

theorem natKey_newRec (op : UpsertOp) (db : Db) :
    natKey (newRec op db) = opKey op := rfl

theorem natKey_updIf (op : UpsertOp) (now : Nat) (r : FlagRecord) :
    natKey (updIf op now r) = natKey r := by
  unfold updIf
  split
  · next h => rw [natKey_updateData]; exact h.symm
  · rfl

theorem lookup_map_updIf (l : List FlagRecord) (op : UpsertOp) (now : Nat)
    (k : TripleKey) :
    (l.map (updIf op now)).find? (fun r => decide (natKey r = k)) =
      (l.find? (fun r => decide (natKey r = k))).map (updIf op now) := by
  have hp : ((fun r => decide (natKey r = k)) ∘ updIf op now) =
      (fun r => decide (natKey r = k)) := by
    funext r
    simp [Function.comp, natKey_updIf]
  rw [List.find?_map, hp]

theorem applyUpsertOp_audits (db : Db) (op : UpsertOp) :
    (applyUpsertOp db op).audits = db.audits := by
  unfold applyUpsertOp applyUpsertReturning
  cases lookupTriple db (opKey op) <;> rfl

theorem applyUpsertOp_now (db : Db) (op : UpsertOp) :
    (applyUpsertOp db op).now = db.now := by
  unfold applyUpsertOp applyUpsertReturning
  cases lookupTriple db (opKey op) <;> rfl

theorem lookupTriple_apply_other (db : Db) (op : UpsertOp) (k : TripleKey)
    (hne : opKey op ≠ k) :
    lookupTriple (applyUpsertOp db op) k = lookupTriple db k := by
  unfold applyUpsertOp applyUpsertReturning
  cases h0 : lookupTriple db (opKey op) with
  | some r0 =>
    show lookupTriple { db with flags := db.flags.map (updIf op db.now) } k =
      lookupTriple db k
    unfold lookupTriple
    simp only []
    rw [lookup_map_updIf]
    cases h1 : db.flags.find? (fun r => decide (natKey r = k)) with
    | none => rfl
    | some r =>
      have hk : natKey r = k := by simpa using List.find?_some h1
      have hno : ¬ natKey r = opKey op := by
        rw [hk]; exact fun hh => hne hh.symm
      simp [updIf, hno]
  | none =>
    show lookupTriple
        { db with flags := db.flags ++ [newRec op db],
                  nextId := db.nextId + 1 } k = lookupTriple db k
    unfold lookupTriple
    simp only []
    rw [List.find?_append]
    cases h1 : db.flags.find? (fun r => decide (natKey r = k)) with
    | some r => rfl
    | none =>
      have : ¬ natKey (newRec op db) = k := by rw [natKey_newRec]; exact hne
      simp [this]

theorem lookupTriple_apply_self_update (db : Db) (op : UpsertOp)
    (r0 : FlagRecord) (h0 : lookupTriple db (opKey op) = some r0) :
    lookupTriple (applyUpsertOp db op) (opKey op) =
      some (updateData r0 op db.now) := by
  unfold applyUpsertOp applyUpsertReturning
  rw [h0]
  show lookupTriple { db with flags := db.flags.map (updIf op db.now) }
      (opKey op) = some (updateData r0 op db.now)
  unfold lookupTriple at h0 ⊢
  simp only []
  rw [lookup_map_updIf, h0]
  have hk : natKey r0 = opKey op := by simpa using List.find?_some h0
  simp [updIf, hk]

theorem lookupTriple_apply_self_create (db : Db) (op : UpsertOp)
    (h0 : lookupTriple db (opKey op) = none) :
    lookupTriple (applyUpsertOp db op) (opKey op) = some (newRec op db) := by
  unfold applyUpsertOp applyUpsertReturning
  rw [h0]
  show lookupTriple
      { db with flags := db.flags ++ [newRec op db],
                nextId := db.nextId + 1 } (opKey op) = some (newRec op db)
  unfold lookupTriple at h0 ⊢
  simp only []
  rw [List.find?_append, h0]
  simp [natKey_newRec]

/- ---------------------------------------------------------------------
Claims C1, C5 (promotion failure behaviour), C6 (upsert FK failure) and
C10 (delete audit ordering).
--------------------------------------------------------------------- -/

theorem parseEnv_empty : parseEnv "" = none := rfl

/-- C1.  Promotion atomicity: with the validation passed and a non-empty
source set, a failure injected at any index of the derived-upsert batch
makes the whole promotion abort with a generic failure and leaves the
entire state — in particular every flag of the target environment —
exactly as it was: no partial promotion is possible. -/
theorem claim_C1_promotion_atomicity (st : St)
    (tenantId sourceEnv targetEnv : String) (se te : Env) (k : Nat)
    (hs : parseEnv sourceEnv = some se) (ht : parseEnv targetEnv = some te)
    (hne : sourceEnv ≠ targetEnv)
    (hk : k < (sourceFlagsOf st.db tenantId se).length) :
    promote st tenantId sourceEnv targetEnv (some k) =
      (PromoteResponse.serverError, st) := by
  have hsne : sourceEnv ≠ "" := by
    intro h; rw [h, parseEnv_empty] at hs; exact Option.noConfusion hs
  have htne : targetEnv ≠ "" := by
    intro h; rw [h, parseEnv_empty] at ht; exact Option.noConfusion ht
  have hcond : ¬ (sourceEnv = "" ∨ targetEnv = "" ∨ sourceEnv = targetEnv ∨
      (parseEnv sourceEnv).isNone ∨ (parseEnv targetEnv).isNone) := by
    simp only [not_or]
    exact ⟨hsne, htne, hne, by simp [hs], by simp [ht]⟩
  unfold promote
  rw [if_neg hcond, hs, ht]
  simp only []
  rw [if_neg (by omega : ¬ (sourceFlagsOf st.db tenantId se).length = 0)]
  simp only [runTransaction, List.length_map]
  rw [if_pos hk]

/-- Witness for C1 at a concrete one-flag state: the injected failure on the
single derived upsert yields a 500 and an unchanged state. -/
theorem claim_C1_witness :
    promote
      { db := { features := [{ id := "ft1", name := "new-dashboard",
                               description := none }],
                flags := [{ id := "flag1", tenantId := "t1",
                            featureId := "ft1", env := Env.staging,
                            enabled := true, strategy := Strategy.BOOLEAN,
                            strategyValue := none, createdAt := 0,
                            updatedAt := 0 }],
                audits := [], nextId := 0, now := 1 }, cache := [] }
      "t1" "staging" "prod" (some 0) =
      (PromoteResponse.serverError,
        { db := { features := [{ id := "ft1", name := "new-dashboard",
                                 description := none }],
                  flags := [{ id := "flag1", tenantId := "t1",
                              featureId := "ft1", env := Env.staging,
                              enabled := true, strategy := Strategy.BOOLEAN,
                              strategyValue := none, createdAt := 0,
                              updatedAt := 0 }],
                  audits := [], nextId := 0, now := 1 }, cache := [] }) :=
  claim_C1_promotion_atomicity _ "t1" "staging" "prod" Env.staging Env.prod 0
    rfl rfl (by decide) (by decide)

/-- C5.  Promotion preconditions: an invalid environment pair (equal
environments, or either outside the enumeration) is rejected as a
validation failure with the state untouched (no store write, no audit
entry, no cache invalidation); a valid pair whose source environment holds
no flags for the tenant yields a not-found failure, also with the state
untouched. -/
theorem claim_C5_promotion_preconditions (st : St)
    (tenantId sourceEnv targetEnv : String) (failAt : Option Nat) :
    ((sourceEnv = targetEnv ∨ (parseEnv sourceEnv).isNone ∨
        (parseEnv targetEnv).isNone) →
      promote st tenantId sourceEnv targetEnv failAt =
        (PromoteResponse.badRequest, st)) ∧
    (∀ se te, parseEnv sourceEnv = some se → parseEnv targetEnv = some te →
      sourceEnv ≠ targetEnv →
      (sourceFlagsOf st.db tenantId se).length = 0 →
      promote st tenantId sourceEnv targetEnv failAt =
        (PromoteResponse.notFound, st)) := by
  constructor
  · intro hbad
    have hc : sourceEnv = "" ∨ targetEnv = "" ∨ sourceEnv = targetEnv ∨
        (parseEnv sourceEnv).isNone ∨ (parseEnv targetEnv).isNone := by
      rcases hbad with h | h | h
      · exact Or.inr (Or.inr (Or.inl h))
      · exact Or.inr (Or.inr (Or.inr (Or.inl h)))
      · exact Or.inr (Or.inr (Or.inr (Or.inr h)))
    unfold promote
    rw [if_pos hc]
  · intro se te hs ht hne hempty
    have hsne : sourceEnv ≠ "" := by
      intro h; rw [h, parseEnv_empty] at hs; exact Option.noConfusion hs
    have htne : targetEnv ≠ "" := by
      intro h; rw [h, parseEnv_empty] at ht; exact Option.noConfusion ht
    have hcond : ¬ (sourceEnv = "" ∨ targetEnv = "" ∨ sourceEnv = targetEnv ∨
        (parseEnv sourceEnv).isNone ∨ (parseEnv targetEnv).isNone) := by
      simp only [not_or]
      exact ⟨hsne, htne, hne, by simp [hs], by simp [ht]⟩
    unfold promote
    rw [if_neg hcond, hs, ht]
    simp only []
    rw [if_pos hempty]

/-- Witness for C5: a same-environment pair is rejected with the state
unchanged, and a valid pair over an empty store yields not-found with the
state unchanged. -/
theorem claim_C5_witness :
    promote
      { db := { features := [], flags := [], audits := [], nextId := 0,
                now := 0 }, cache := [] }
      "t1" "staging" "staging" none =
      (PromoteResponse.badRequest,
        { db := { features := [], flags := [], audits := [], nextId := 0,
                  now := 0 }, cache := [] }) ∧
    promote
      { db := { features := [], flags := [], audits := [], nextId := 0,
                now := 0 }, cache := [] }
      "t1" "staging" "prod" none =
      (PromoteResponse.notFound,
        { db := { features := [], flags := [], audits := [], nextId := 0,
                  now := 0 }, cache := [] }) := by
  constructor
  · exact (claim_C5_promotion_preconditions _ "t1" "staging" "staging"
      none).1 (Or.inl rfl)
  · exact (claim_C5_promotion_preconditions _ "t1" "staging" "prod"
      none).2 Env.staging Env.prod rfl rfl (by decide) (by decide)

/-- C6 counterexample.  The claim states that an upsert whose `featureId`
references no existing `Feature` fails with NotFound (404); on the code the
foreign-key violation reaches the generic catch (only P2002 is mapped) and
the caller observes a 500, not a 404. -/
theorem claim_C6_counterexample :
    (upsertFlag
      { db := { features := [], flags := [], audits := [], nextId := 0,
                now := 0 }, cache := [] }
      "t1" "feat1" Env.dev true Strategy.BOOLEAN none).1.status = 500 ∧
    ¬ (upsertFlag
      { db := { features := [], flags := [], audits := [], nextId := 0,
                now := 0 }, cache := [] }
      "t1" "feat1" Env.dev true Strategy.BOOLEAN none).1.status = 404 := by
  constructor
  · rfl
  · decide

/-- C6 as amended: an upsert whose `featureId` references no existing
`Feature` row fails with the generic server failure (500) — the handler's
catch block does not map the foreign-key violation to NotFound — and the
state is left untouched. -/
theorem claim_C6_upsert_fk (st : St) (tenantId featureId : String)
    (env : Env) (enabled : Bool) (strategy : Strategy) (sv : Option Json)
    (hfid : featureId ≠ "")
    (hmissing : st.db.features.find? (fun ft => decide (ft.id = featureId)) =
      none) :
    upsertFlag st tenantId featureId env enabled strategy sv =
      (UpsertResponse.serverError, st) := by
  unfold upsertFlag
  rw [if_neg hfid]
  simp only [hmissing, Option.isNone_none, if_true]

/-- Witness for C6 (amended) at a concrete state with no features. -/
theorem claim_C6_witness :
    upsertFlag
      { db := { features := [], flags := [], audits := [], nextId := 0,
                now := 0 }, cache := [] }
      "t1" "feat1" Env.dev true Strategy.BOOLEAN none =
      (UpsertResponse.serverError,
        { db := { features := [], flags := [], audits := [], nextId := 0,
                  now := 0 }, cache := [] }) :=
  claim_C6_upsert_fk _ "t1" "feat1" Env.dev true Strategy.BOOLEAN none
    (by decide) rfl

/-- C10.  In the delete handler the DELETE audit entry is appended before
the store deletion runs: when the deletion itself fails after the
tenant-scoped lookup succeeded, the handler reports a generic failure, the
flag is still present, the cache was not invalidated, yet the DELETE audit
entry (recording the flag as deleted) has been appended. -/
theorem claim_C10_delete_audit_order (st : St) (tenantId flagId : String)
    (g : FlagRecord)
    (hfind : st.db.flags.find?
      (fun r => decide (r.id = flagId) && decide (r.tenantId = tenantId)) =
        some g) :
    (deleteFlag st tenantId flagId true).1 = DeleteResponse.serverError ∧
    (deleteFlag st tenantId flagId true).2.db.flags = st.db.flags ∧
    (deleteFlag st tenantId flagId true).2.cache = st.cache ∧
    (deleteFlag st tenantId flagId true).2.db.audits =
      st.db.audits ++
        [{ tenantId := tenantId, actor := tenantId,
           action := AuditAction.DELETE, entity := "FeatureFlag",
           entityId := g.id, diff := some (Diff.change (some g) none) }] := by
  unfold deleteFlag
  rw [hfind]
  exact ⟨rfl, rfl, rfl, rfl⟩

/-- Witness for C10 at a concrete state holding the flag to delete. -/
theorem claim_C10_witness :
    (deleteFlag
      { db := { features := [],
                flags := [{ id := "flag1", tenantId := "t1",
                            featureId := "ft1", env := Env.dev,
                            enabled := true, strategy := Strategy.BOOLEAN,
                            strategyValue := none, createdAt := 0,
                            updatedAt := 0 }],
                audits := [], nextId := 0, now := 0 }, cache := [] }
      "t1" "flag1" true).1 = DeleteResponse.serverError ∧
    (deleteFlag
      { db := { features := [],
                flags := [{ id := "flag1", tenantId := "t1",
                            featureId := "ft1", env := Env.dev,
                            enabled := true, strategy := Strategy.BOOLEAN,
                            strategyValue := none, createdAt := 0,
                            updatedAt := 0 }],
                audits := [], nextId := 0, now := 0 }, cache := [] }
      "t1" "flag1" true).2.db.audits =
      [{ tenantId := "t1", actor := "t1", action := AuditAction.DELETE,
         entity := "FeatureFlag", entityId := "flag1",
         diff := some (Diff.change
           (some { id := "flag1", tenantId := "t1", featureId := "ft1",
                   env := Env.dev, enabled := true,
                   strategy := Strategy.BOOLEAN, strategyValue := none,
                   createdAt := 0, updatedAt := 0 }) none) }] := by
  have h := claim_C10_delete_audit_order
    { db := { features := [],
              flags := [{ id := "flag1", tenantId := "t1",
                          featureId := "ft1", env := Env.dev,
                          enabled := true, strategy := Strategy.BOOLEAN,
                          strategyValue := none, createdAt := 0,
                          updatedAt := 0 }],
              audits := [], nextId := 0, now := 0 }, cache := [] }
    "t1" "flag1"
    { id := "flag1", tenantId := "t1", featureId := "ft1", env := Env.dev,
      enabled := true, strategy := Strategy.BOOLEAN, strategyValue := none,
      createdAt := 0, updatedAt := 0 } rfl
  exact ⟨h.1, h.2.2.2⟩

/- ---------------------------------------------------------------------
Lemmas about batched upserts (the promotion transaction body).
--------------------------------------------------------------------- -/

theorem applyUpsertReturning_update (db : Db) (op : UpsertOp)
    (r0 : FlagRecord) (h : lookupTriple db (opKey op) = some r0) :
    applyUpsertReturning db op =
      (updateData r0 op db.now,
        { db with flags := db.flags.map (updIf op db.now) }) := by
  unfold applyUpsertReturning
  rw [h]

theorem applyUpsertReturning_create (db : Db) (op : UpsertOp)
    (h : lookupTriple db (opKey op) = none) :
    applyUpsertReturning db op =
      (newRec op db,
        { db with flags := db.flags ++ [newRec op db],
                  nextId := db.nextId + 1 }) := by
  unfold applyUpsertReturning
  rw [h]

theorem foldl_apply_audits (ops : List UpsertOp) :
    ∀ db : Db, (ops.foldl applyUpsertOp db).audits = db.audits := by
  induction ops with
  | nil => intro db; rfl
  | cons o rest ih =>
    intro db
    simp only [List.foldl_cons]
    rw [ih, applyUpsertOp_audits]

theorem foldl_lookup_preserved (ops : List UpsertOp) :
    ∀ (db : Db) (k : TripleKey), (∀ op ∈ ops, opKey op ≠ k) →
      lookupTriple (ops.foldl applyUpsertOp db) k = lookupTriple db k := by
  induction ops with
  | nil => intro db k _; rfl
  | cons o rest ih =>
    intro db k h
    simp only [List.foldl_cons]
    rw [ih (applyUpsertOp db o) k
      (fun op hop => h op (List.mem_cons_of_mem o hop))]
    exact lookupTriple_apply_other db o k (h o (List.mem_cons_self o rest))

/-- After folding a batch of upserts with pairwise-distinct keys over the
store, every operation's key holds a record carrying exactly the
operation's data, and when the key already held a record its identity
(`id`, `createdAt`) survives — the batch never copies identity from
anywhere else. -/
theorem foldl_upsert_spec (ops : List UpsertOp) :
    ∀ db : Db, ops.Pairwise (fun a b => opKey a ≠ opKey b) →
      ∀ op ∈ ops, ∃ g : FlagRecord,
        lookupTriple (ops.foldl applyUpsertOp db) (opKey op) = some g ∧
        g.tenantId = op.tenantId ∧ g.featureId = op.featureId ∧
        g.env = op.env ∧ g.enabled = op.enabled ∧
        g.strategy = op.strategy ∧ g.strategyValue = op.strategyValue ∧
        (∀ g0, lookupTriple db (opKey op) = some g0 →
          g.id = g0.id ∧ g.createdAt = g0.createdAt) := by
  induction ops with
  | nil =>
    intro db _ op hop
    exact absurd hop (List.not_mem_nil op)
  | cons o rest ih =>
    intro db hpw op hop
    rcases List.pairwise_cons.mp hpw with ⟨h1, h2⟩
    rcases List.mem_cons.mp hop with rfl | hmem
    · simp only [List.foldl_cons]
      have hpres : lookupTriple
          (rest.foldl applyUpsertOp (applyUpsertOp db op)) (opKey op) =
          lookupTriple (applyUpsertOp db op) (opKey op) :=
        foldl_lookup_preserved rest (applyUpsertOp db op) (opKey op)
          (fun op2 hm => (h1 op2 hm).symm)
      cases h0 : lookupTriple db (opKey op) with
      | some r0 =>
        refine ⟨updateData r0 op db.now, ?_, rfl, rfl, rfl, rfl, rfl, rfl, ?_⟩
        · rw [hpres]
          exact lookupTriple_apply_self_update db op r0 h0
        · intro g0 hg0
          injection hg0 with he
          subst he
          exact ⟨rfl, rfl⟩
      | none =>
        refine ⟨newRec op db, ?_, rfl, rfl, rfl, rfl, rfl, rfl, ?_⟩
        · rw [hpres]
          exact lookupTriple_apply_self_create db op h0
        · intro g0 hg0
          exact Option.noConfusion hg0
    · simp only [List.foldl_cons]
      obtain ⟨g, hg, f1, f2, f3, f4, f5, f6, hid⟩ :=
        ih (applyUpsertOp db o) h2 op hmem
      refine ⟨g, hg, f1, f2, f3, f4, f5, f6, ?_⟩
      intro g0 hg0
      apply hid
      rw [lookupTriple_apply_other db o (opKey op) (h1 op hmem)]
      exact hg0

/-- Natural-key uniqueness of the store carries over to the derived
promotion batch: its operation keys are pairwise distinct (all source
records share the tenant and the source environment, so their feature
references differ). -/
theorem promote_ops_pairwise (db : Db) (tenantId : String) (se te : Env)
    (hWF : db.flags.Pairwise (fun a b => natKey a ≠ natKey b)) :
    ((sourceFlagsOf db tenantId se).map (fun f => promoteOp f te)).Pairwise
      (fun a b => opKey a ≠ opKey b) := by
  rw [List.pairwise_map]
  have hsub : (sourceFlagsOf db tenantId se).Pairwise
      (fun a b => natKey a ≠ natKey b) :=
    List.Pairwise.sublist (List.filter_sublist _) hWF
  refine List.Pairwise.imp_of_mem ?_ hsub
  intro a b ha hb hne heq
  have ha' := (List.mem_filter.mp ha).2
  have hb' := (List.mem_filter.mp hb).2
  simp only [Bool.and_eq_true, decide_eq_true_eq] at ha' hb'
  apply hne
  have h1 : a.tenantId = b.tenantId ∧ a.featureId = b.featureId := by
    have := heq
    simp only [opKey, promoteOp, Prod.mk.injEq] at this
    exact ⟨this.1, this.2.1⟩
  show (a.tenantId, a.featureId, a.env) = (b.tenantId, b.featureId, b.env)
  rw [h1.1, h1.2, ha'.2, hb'.2]

/-- The successful promotion, written out: the response is `ok` with the
source count, the flags are the transaction fold, one PROMOTE audit entry
is appended and the target cache key is dropped. -/
theorem promote_success_eq (st : St)
    (tenantId sourceEnv targetEnv : String) (se te : Env)
    (hs : parseEnv sourceEnv = some se) (ht : parseEnv targetEnv = some te)
    (hne : sourceEnv ≠ targetEnv)
    (hlen : (sourceFlagsOf st.db tenantId se).length ≠ 0) :
    promote st tenantId sourceEnv targetEnv none =
      (PromoteResponse.ok (sourceFlagsOf st.db tenantId se).length,
        { db := { (((sourceFlagsOf st.db tenantId se).map
              (fun f => promoteOp f te)).foldl applyUpsertOp st.db) with
            audits := (((sourceFlagsOf st.db tenantId se).map
                (fun f => promoteOp f te)).foldl applyUpsertOp st.db).audits
              ++ [{ tenantId := tenantId, actor := tenantId,
                    action := AuditAction.PROMOTE, entity := "Environment",
                    entityId := targetEnv,
                    diff := some (Diff.promo sourceEnv targetEnv
                      (sourceFlagsOf st.db tenantId se).length) }] },
          cache := cacheDel st.cache (createCacheKey tenantId targetEnv) }) := by
  have hsne : sourceEnv ≠ "" := by
    intro h; rw [h, parseEnv_empty] at hs; exact Option.noConfusion hs
  have htne : targetEnv ≠ "" := by
    intro h; rw [h, parseEnv_empty] at ht; exact Option.noConfusion ht
  have hcond : ¬ (sourceEnv = "" ∨ targetEnv = "" ∨ sourceEnv = targetEnv ∨
      (parseEnv sourceEnv).isNone ∨ (parseEnv targetEnv).isNone) := by
    simp only [not_or]
    exact ⟨hsne, htne, hne, by simp [hs], by simp [ht]⟩
  unfold promote
  rw [if_neg hcond, hs, ht]
  simp only []
  rw [if_neg hlen]
  simp only [runTransaction, List.length_map]

/- ---------------------------------------------------------------------
Claim C2: promotion correctness.
--------------------------------------------------------------------- -/

/-- C2.  On a successful promotion, the response carries exactly the number
of source records read; every source flag has, at
`(tenantId, featureId, targetEnv)`, a record in the target environment with
`enabled`, `strategy` and `strategyValue` copied verbatim; and when the
target triple already held a record, that record keeps its own `id` and
`createdAt` — the source record's identity and timestamps are never
copied. -/
theorem claim_C2_promotion_correct (st : St)
    (tenantId sourceEnv targetEnv : String) (se te : Env)
    (hWF : st.db.flags.Pairwise (fun a b => natKey a ≠ natKey b))
    (hs : parseEnv sourceEnv = some se) (ht : parseEnv targetEnv = some te)
    (hne : sourceEnv ≠ targetEnv)
    (hlen : (sourceFlagsOf st.db tenantId se).length ≠ 0) :
    (promote st tenantId sourceEnv targetEnv none).1 =
      PromoteResponse.ok (sourceFlagsOf st.db tenantId se).length ∧
    ∀ f ∈ sourceFlagsOf st.db tenantId se, ∃ g : FlagRecord,
      lookupTriple (promote st tenantId sourceEnv targetEnv none).2.db
        (f.tenantId, f.featureId, te) = some g ∧
      g ∈ (promote st tenantId sourceEnv targetEnv none).2.db.flags ∧
      g.tenantId = f.tenantId ∧ g.featureId = f.featureId ∧ g.env = te ∧
      g.enabled = f.enabled ∧ g.strategy = f.strategy ∧
      g.strategyValue = f.strategyValue ∧
      (∀ g0, lookupTriple st.db (f.tenantId, f.featureId, te) = some g0 →
        g.id = g0.id ∧ g.createdAt = g0.createdAt) := by
  have hp := promote_success_eq st tenantId sourceEnv targetEnv se te
    hs ht hne hlen
  constructor
  · rw [hp]
  · intro f hf
    have hpw := promote_ops_pairwise st.db tenantId se te hWF
    have hopmem : promoteOp f te ∈
        (sourceFlagsOf st.db tenantId se).map (fun f => promoteOp f te) :=
      List.mem_map_of_mem _ hf
    obtain ⟨g, hg, f1, f2, f3, f4, f5, f6, hid⟩ :=
      foldl_upsert_spec _ st.db hpw (promoteOp f te) hopmem
    have hg' := hg
    unfold lookupTriple at hg'
    refine ⟨g, ?_, ?_, f1, f2, f3, f4, f5, f6, ?_⟩
    · rw [hp]
      exact hg
    · rw [hp]
      exact List.mem_of_find?_eq_some hg'
    · intro g0 h0
      exact hid g0 h0

/-- Witness for C2: promoting the single staging flag of a concrete state
to prod yields `ok 1` and a prod record with the copied data. -/
theorem claim_C2_witness :
    (promote
      { db := { features := [{ id := "ft1", name := "new-dashboard",
                               description := none }],
                flags := [{ id := "flag1", tenantId := "t1",
                            featureId := "ft1", env := Env.staging,
                            enabled := true, strategy := Strategy.BOOLEAN,
                            strategyValue := none, createdAt := 0,
                            updatedAt := 0 }],
                audits := [], nextId := 0, now := 1 }, cache := [] }
      "t1" "staging" "prod" none).1 = PromoteResponse.ok 1 ∧
    ∃ g : FlagRecord,
      lookupTriple (promote
        { db := { features := [{ id := "ft1", name := "new-dashboard",
                                 description := none }],
                  flags := [{ id := "flag1", tenantId := "t1",
                              featureId := "ft1", env := Env.staging,
                              enabled := true, strategy := Strategy.BOOLEAN,
                              strategyValue := none, createdAt := 0,
                              updatedAt := 0 }],
                  audits := [], nextId := 0, now := 1 }, cache := [] }
        "t1" "staging" "prod" none).2.db ("t1", "ft1", Env.prod) = some g ∧
      g.enabled = true ∧ g.strategy = Strategy.BOOLEAN ∧
      g.strategyValue = none := by
  have h := claim_C2_promotion_correct
    { db := { features := [{ id := "ft1", name := "new-dashboard",
                             description := none }],
              flags := [{ id := "flag1", tenantId := "t1",
                          featureId := "ft1", env := Env.staging,
                          enabled := true, strategy := Strategy.BOOLEAN,
                          strategyValue := none, createdAt := 0,
                          updatedAt := 0 }],
              audits := [], nextId := 0, now := 1 }, cache := [] }
    "t1" "staging" "prod" Env.staging Env.prod
    (by simp) rfl rfl (by decide) (by decide)
  refine ⟨h.1, ?_⟩
  obtain ⟨g, hg, _, _, _, _, he, hstr, hsv, _⟩ :=
    h.2 { id := "flag1", tenantId := "t1", featureId := "ft1",
          env := Env.staging, enabled := true, strategy := Strategy.BOOLEAN,
          strategyValue := none, createdAt := 0, updatedAt := 0 }
      (by simp [sourceFlagsOf, List.filter])
  exact ⟨g, hg, he, hstr, hsv⟩

/- ---------------------------------------------------------------------
Claim C7: audit diff shapes.
--------------------------------------------------------------------- -/

theorem parseEnv_eq_name (s : String) (e : Env) (h : parseEnv s = some e) :
    s = envName e := by
  unfold parseEnv at h
  split_ifs at h with h1 h2 h3
  · injection h with he; subst he; exact h1
  · injection h with he; subst he; exact h2
  · injection h with he; subst he; exact h3

/-- C7.  Audit diff shapes.  (a) An upsert on a triple with no existing
record appends one entry with action CREATE and diff `{before: null,
after}`; (b) an upsert on an existing triple appends one entry with action
UPDATE and `before` the prior record; (c) a delete appends one entry with
action DELETE and diff `{before, after: null}`; (d) a successful promotion
appends exactly one entry with action PROMOTE whose entity id is the target
environment name (not a FlagRecord id) and whose diff carries the source
environment, the target environment and the promoted count. -/
theorem claim_C7_audit_shapes (st : St) (tenantId featureId : String)
    (env : Env) (enabled : Bool) (strategy : Strategy) (sv : Option Json)
    (flagId : String) (gdel : FlagRecord) (sourceEnv targetEnv : String)
    (se te : Env) :
    ((lookupTriple st.db (tenantId, featureId, env) = none → featureId ≠ "" →
      (st.db.features.find? (fun ft => decide (ft.id = featureId))).isNone =
        false →
      ∃ g : FlagRecord,
        (upsertFlag st tenantId featureId env enabled strategy sv).2.db.audits
          = st.db.audits ++
            [{ tenantId := tenantId, actor := tenantId,
               action := AuditAction.CREATE, entity := "FeatureFlag",
               entityId := g.id,
               diff := some (Diff.change none (some g)) }]) ∧
    (∀ g0 : FlagRecord,
      lookupTriple st.db (tenantId, featureId, env) = some g0 →
      featureId ≠ "" →
      (st.db.features.find? (fun ft => decide (ft.id = featureId))).isNone =
        false →
      ∃ g : FlagRecord,
        (upsertFlag st tenantId featureId env enabled strategy sv).2.db.audits
          = st.db.audits ++
            [{ tenantId := tenantId, actor := tenantId,
               action := AuditAction.UPDATE, entity := "FeatureFlag",
               entityId := g.id,
               diff := some (Diff.change (some g0) (some g)) }])) ∧
    (st.db.flags.find?
        (fun r => decide (r.id = flagId) && decide (r.tenantId = tenantId)) =
          some gdel →
      (deleteFlag st tenantId flagId false).2.db.audits =
        st.db.audits ++
          [{ tenantId := tenantId, actor := tenantId,
             action := AuditAction.DELETE, entity := "FeatureFlag",
             entityId := gdel.id,
             diff := some (Diff.change (some gdel) none) }]) ∧
    (parseEnv sourceEnv = some se → parseEnv targetEnv = some te →
      sourceEnv ≠ targetEnv →
      (sourceFlagsOf st.db tenantId se).length ≠ 0 →
      (promote st tenantId sourceEnv targetEnv none).2.db.audits =
        st.db.audits ++
          [{ tenantId := tenantId, actor := tenantId,
             action := AuditAction.PROMOTE, entity := "Environment",
             entityId := targetEnv,
             diff := some (Diff.promo sourceEnv targetEnv
               (sourceFlagsOf st.db tenantId se).length) }] ∧
        targetEnv = envName te) := by
  refine ⟨⟨?_, ?_⟩, ?_, ?_⟩
  · intro h0 hfid hfeat
    refine ⟨newRec ⟨tenantId, featureId, env, enabled, strategy,
      normalizeSV sv⟩ st.db, ?_⟩
    unfold upsertFlag
    rw [if_neg hfid]
    simp only [hfeat, Bool.false_eq_true, if_false]
    rw [applyUpsertReturning_create st.db _ (by exact h0), h0]
    rfl
  · intro g0 h0 hfid hfeat
    refine ⟨updateData g0 ⟨tenantId, featureId, env, enabled, strategy,
      normalizeSV sv⟩ st.db.now, ?_⟩
    unfold upsertFlag
    rw [if_neg hfid]
    simp only [hfeat, Bool.false_eq_true, if_false]
    rw [applyUpsertReturning_update st.db _ g0 (by exact h0), h0]
    rfl
  · intro hfind
    unfold deleteFlag
    rw [hfind]
    rfl
  · intro hs ht hne hlen
    rw [promote_success_eq st tenantId sourceEnv targetEnv se te
      hs ht hne hlen]
    refine ⟨?_, parseEnv_eq_name targetEnv te ht⟩
    show (((sourceFlagsOf st.db tenantId se).map
        (fun f => promoteOp f te)).foldl applyUpsertOp st.db).audits ++ _ =
      st.db.audits ++ _
    rw [foldl_apply_audits]

/-- Witness for C7: a create-upsert, an update-upsert, a delete and a
promotion on concrete states produce audit entries of the stated shapes. -/
theorem claim_C7_witness :
    (∃ g : FlagRecord,
      (upsertFlag
        { db := { features := [{ id := "ft1", name := "new-dashboard",
                                 description := none }],
                  flags := [], audits := [], nextId := 0, now := 0 },
          cache := [] }
        "t1" "ft1" Env.dev true Strategy.BOOLEAN none).2.db.audits =
        [{ tenantId := "t1", actor := "t1", action := AuditAction.CREATE,
           entity := "FeatureFlag", entityId := g.id,
           diff := some (Diff.change none (some g)) }]) ∧
    (deleteFlag
      { db := { features := [],
                flags := [{ id := "flag9", tenantId := "t1",
                            featureId := "ft1", env := Env.dev,
                            enabled := true, strategy := Strategy.BOOLEAN,
                            strategyValue := none, createdAt := 0,
                            updatedAt := 0 }],
                audits := [], nextId := 0, now := 0 }, cache := [] }
      "t1" "flag9" false).2.db.audits =
      [{ tenantId := "t1", actor := "t1", action := AuditAction.DELETE,
         entity := "FeatureFlag", entityId := "flag9",
         diff := some (Diff.change
           (some { id := "flag9", tenantId := "t1", featureId := "ft1",
                   env := Env.dev, enabled := true,
                   strategy := Strategy.BOOLEAN, strategyValue := none,
                   createdAt := 0, updatedAt := 0 }) none) }] ∧
    (promote
      { db := { features := [{ id := "ft1", name := "new-dashboard",
                               description := none }],
                flags := [{ id := "flag1", tenantId := "t1",
                            featureId := "ft1", env := Env.staging,
                            enabled := true, strategy := Strategy.BOOLEAN,
                            strategyValue := none, createdAt := 0,
                            updatedAt := 0 }],
                audits := [], nextId := 0, now := 1 }, cache := [] }
      "t1" "staging" "prod" none).2.db.audits =
      [{ tenantId := "t1", actor := "t1", action := AuditAction.PROMOTE,
         entity := "Environment", entityId := "prod",
         diff := some (Diff.promo "staging" "prod" 1) }] := by
  refine ⟨?_, ?_, ?_⟩
  · obtain ⟨g, hg⟩ := (claim_C7_audit_shapes
      { db := { features := [{ id := "ft1", name := "new-dashboard",
                               description := none }],
                flags := [], audits := [], nextId := 0, now := 0 },
        cache := [] }
      "t1" "ft1" Env.dev true Strategy.BOOLEAN none "x"
      { id := "x", tenantId := "x", featureId := "x", env := Env.dev,
        enabled := false, strategy := Strategy.BOOLEAN,
        strategyValue := none, createdAt := 0, updatedAt := 0 }
      "" "" Env.dev Env.dev).1.1 rfl (by decide) rfl
    exact ⟨g, hg⟩
  · exact (claim_C7_audit_shapes
      { db := { features := [],
                flags := [{ id := "flag9", tenantId := "t1",
                            featureId := "ft1", env := Env.dev,
                            enabled := true, strategy := Strategy.BOOLEAN,
                            strategyValue := none, createdAt := 0,
                            updatedAt := 0 }],
                audits := [], nextId := 0, now := 0 }, cache := [] }
      "t1" "ft1" Env.dev true Strategy.BOOLEAN none "flag9"
      { id := "flag9", tenantId := "t1", featureId := "ft1", env := Env.dev,
        enabled := true, strategy := Strategy.BOOLEAN, strategyValue := none,
        createdAt := 0, updatedAt := 0 }
      "" "" Env.dev Env.dev).2.1 rfl
  · exact ((claim_C7_audit_shapes
      { db := { features := [{ id := "ft1", name := "new-dashboard",
                               description := none }],
                flags := [{ id := "flag1", tenantId := "t1",
                            featureId := "ft1", env := Env.staging,
                            enabled := true, strategy := Strategy.BOOLEAN,
                            strategyValue := none, createdAt := 0,
                            updatedAt := 0 }],
                audits := [], nextId := 0, now := 1 }, cache := [] }
      "t1" "ft1" Env.dev true Strategy.BOOLEAN none "x"
      { id := "x", tenantId := "x", featureId := "x", env := Env.dev,
        enabled := false, strategy := Strategy.BOOLEAN,
        strategyValue := none, createdAt := 0, updatedAt := 0 }
      "staging" "prod" Env.staging Env.prod).2.2 rfl rfl (by decide)
      (by decide)).1

end FTS
